import Mathlib

/-!
Shallow embedding of the expense-tracker core (tools.py and tracker_agent.py):
the natural-language extraction heuristic and the ledger store operations,
together with theorems settling the specification claims about them.

Python strings are modelled as `String`, Python floats produced by the amount
regex as `ℚ` (the regex only yields decimals with at most two fractional
digits), the optional/None-able fields as `Option`, and the CSV-backed ledger
as a `List Transaction` (read-entire / mutate / write-entire persistence is
modelled by explicit state passing).  The Python string primitives `replace`,
`strip` and `split` are re-implemented structurally over `List Char` so that
every definition evaluates by kernel reduction.
-/

namespace ExpenseTracker

/-- Lowercasing applied character by character, modelling Python `str.lower`
on the ASCII texts the heuristics work with. -/
def toLowerStr (s : String) : String := ⟨s.data.map Char.toLower⟩

/-- Python falsiness of a string: only the empty string is falsy. -/
def pyFalsy (s : String) : Bool := s.data.isEmpty

/-- Worker for `pySplit`: split a character list on whitespace runs, dropping
empty pieces; the accumulator holds the current token reversed. -/
def splitWsAux : List Char → List Char → List (List Char)
  | [], cur => if cur.isEmpty then [] else [cur.reverse]
  | c :: cs, cur =>
    if c.isWhitespace then
      if cur.isEmpty then splitWsAux cs [] else cur.reverse :: splitWsAux cs []
    else splitWsAux cs (c :: cur)

/-- Whitespace tokenization modelling Python `str.split()` with no argument:
split on runs of whitespace and drop empty tokens. -/
def pySplit (s : String) : List String :=
  (splitWsAux s.data []).map (fun l => ⟨l⟩)

/-- Strip leading and trailing whitespace from a character list. -/
def stripChars (l : List Char) : List Char :=
  ((l.dropWhile Char.isWhitespace).reverse.dropWhile Char.isWhitespace).reverse

/-- Python `str.strip()` with no argument. -/
def pyStrip (s : String) : String := ⟨stripChars s.data⟩

/-- Worker for `pyReplace`: replace non-overlapping occurrences of `pat`
left to right; the fuel, initialised to the length of the text, bounds the
recursion and is never exhausted for a non-empty pattern. -/
def replaceAux (pat rep : List Char) : Nat → List Char → List Char
  | 0, l => l
  | _ + 1, [] => []
  | fuel + 1, c :: cs =>
    if pat.isPrefixOf (c :: cs) then
      rep ++ replaceAux pat rep fuel (List.drop (pat.length - 1) cs)
    else c :: replaceAux pat rep fuel cs

/-- Python `str.replace(pat, rep)`: replace every non-overlapping occurrence
of `pat`, scanning left to right. -/
def pyReplace (s pat rep : String) : String :=
  ⟨replaceAux pat.data rep.data s.data.length s.data⟩

/-- Substring containment, modelling the Python `needle in hay` test on
strings. -/
def containsSub (hay needle : String) : Bool :=
  hay.data.tails.any (fun t => needle.data.isPrefixOf t)

/-- Character-level worker for `pyTitle`: the boolean records whether the
previous character was alphabetic. -/
def titleChars : Bool → List Char → List Char
  | _, [] => []
  | prevAlpha, c :: cs =>
    (if c.isAlpha then (if prevAlpha then c.toLower else c.toUpper) else c) ::
      titleChars c.isAlpha cs

/-- Python `str.title()`: uppercase every alphabetic character that follows a
non-alphabetic one, lowercase the other alphabetic characters. -/
def pyTitle (s : String) : String := ⟨titleChars false s.data⟩

/-- Numeric value of a list of decimal digit characters. -/
def digitsVal (ds : List Char) : Nat :=
  ds.foldl (fun n c => 10 * n + (c.toNat - 48)) 0

/-- Fractional digits captured by the amount regex: at most two digits
immediately following a dot. -/
def fracDigits : List Char → List Char
  | '.' :: r => (r.takeWhile Char.isDigit).take 2
  | _ => []

/-- Amount extraction of `extract_expense_info` (tools.py line 20):
`re.search` with pattern an optional currency marker, optional whitespace and
a captured `\d+(\.\d{1,2})?`.  The leftmost match always captures the maximal
digit run starting at the first digit of the text, extended by a dot and at
most two further digits when they immediately follow; no digit at all means
no match, hence `none`. -/
def parseAmount (s : String) : Option ℚ :=
  let cs := s.data.dropWhile (fun c => !c.isDigit)
  if cs.isEmpty then none
  else
    let ip : ℚ := (digitsVal (cs.takeWhile Char.isDigit) : ℕ)
    match fracDigits (cs.dropWhile Char.isDigit) with
    | [] => some ip
    | fs => some (ip + (digitsVal fs : ℚ) / ((10 : ℚ) ^ fs.length))

/-- Python truthiness of an optional string: `None` and `""` are falsy. -/
def truthyStr : Option String → Bool
  | none => false
  | some s => !pyFalsy s

/-- Python truthiness of the optional parsed amount: `None` and `0.0` are
falsy. -/
def truthyAmt : Option ℚ → Bool
  | none => false
  | some a => a != 0

/-- Expense keywords of tools.py lines 29-32. -/
def expense_keywords : List String :=
  ["spent", "paid", "bought", "purchased", "ate", "gave", "cost", "costs",
   "bill", "bills", "expense", "expenses", "shopping", "shop", "buy"]

/-- Income keywords of tools.py lines 35-38. -/
def income_keywords : List String :=
  ["received", "got", "earned", "salary", "income", "profit", "bonus",
   "refund", "returned", "cashback", "won", "gift", "allowance"]

/-- Contextual expense words of tools.py line 57. -/
def expense_context_words : List String :=
  ["food", "groceries", "restaurant", "fuel", "gas", "movie", "clothes"]

/-- Contextual income words of tools.py line 60. -/
def income_context_words : List String :=
  ["work", "job", "freelance", "project", "client"]

/-- Expense category buckets of tools.py lines 76-85, in table order. -/
def category_keywords : List (String × List String) :=
  [("Food & Dining",
    ["food", "restaurant", "lunch", "dinner", "breakfast", "ate", "pizza",
     "coffee", "snack"]),
   ("Groceries",
    ["groceries", "grocery", "supermarket", "vegetables", "fruits", "milk",
     "bread"]),
   ("Transportation",
    ["fuel", "gas", "petrol", "diesel", "uber", "taxi", "bus", "train",
     "metro"]),
   ("Entertainment",
    ["movie", "movies", "cinema", "game", "games", "party", "concert",
     "show"]),
   ("Shopping",
    ["clothes", "clothing", "shoes", "dress", "shirt", "shopping", "mall"]),
   ("Bills & Utilities",
    ["bill", "bills", "electricity", "water", "internet", "phone", "rent"]),
   ("Health & Medical",
    ["doctor", "medicine", "hospital", "pharmacy", "medical", "health"]),
   ("Education",
    ["books", "course", "class", "tuition", "fees", "school", "college"])]

/-- Income source buckets of tools.py lines 129-137, in table order. -/
def income_sources : List (String × List String) :=
  [("Salary", ["salary", "job", "work", "employment", "paycheck"]),
   ("Freelance", ["freelance", "freelancing", "client", "project", "contract"]),
   ("Business", ["business", "sales", "profit", "revenue"]),
   ("Investment", ["investment", "dividend", "interest", "stocks", "mutual"]),
   ("Gift", ["gift", "present", "birthday", "wedding"]),
   ("Refund", ["refund", "return", "cashback"]),
   ("Allowance", ["allowance", "pocket money", "parents"])]

/-- First bucket of an ordered table whose keyword list has a member that is
a substring of the text (tools.py lines 88-91 and 140-143). -/
def firstBucket : List (String × List String) → String → Option String
  | [], _ => none
  | (cat, kws) :: rest, t =>
    if kws.any (fun k => containsSub t k) then some cat else firstBucket rest t

/-- The phrase processing applied by the preposition fallback (tools.py lines
100-102): join the tokens with spaces, strip, remove every substring
occurrence of "the" and then of "a", and strip again. -/
def processPhrase (ws : List String) : String :=
  pyStrip (pyReplace (pyReplace (pyStrip (" ".intercalate ws)) "the" "") "a" "")

/-- Preposition fallback loop of `extract_category_for_expense` (tools.py
lines 95-105): iterate the prepositions in order; for the first one present
in the token list whose first occurrence has a successor token, process the
tokens after that first occurrence and stop (Python `break`), even when the
processed string came out empty.  A preposition occurring only as the final
token does not stop the loop. -/
def prepLoop : List String → List String → Option String
  | [], _ => none
  | kw :: rest, words =>
    match words.findIdx? (fun w => w == kw) with
    | some idx =>
      if idx + 1 < words.length then some (processPhrase (words.drop (idx + 1)))
      else prepLoop rest words
    | none => prepLoop rest words

/-- Post-number fallback of `extract_category_for_expense` (tools.py lines
110-116): the tokens that come after some digit-bearing token, digit-bearing
tokens themselves excluded. -/
def wordsAfterAmount (words : List String) : List String :=
  (words.foldl
    (fun acc w =>
      if w.data.any Char.isDigit then (true, acc.2)
      else if acc.1 then (true, acc.2 ++ [w]) else acc)
    ((false, []) : Bool × List String)).2

/-- Final step shared by both category extractors (tools.py lines 121 and
154): `return category.title() if category else default`. -/
def finalizeCategory (dflt : String) : Option String → String
  | some c => if pyFalsy c then dflt else pyTitle c
  | none => dflt

/-- Candidate category of `extract_category_for_expense` before the default
(tools.py lines 73-119): bucket lookup, then the preposition fallback, then
the post-number fallback, each tried only while the candidate so far is
Python-falsy. -/
def expenseCandidate (text_lower : String) (words : List String) :
    Option String :=
  let c0 := firstBucket category_keywords text_lower
  let c1 := if truthyStr c0 then c0 else prepLoop ["on", "for", "to", "at"] words
  if truthyStr c1 then c1
  else if text_lower.data.any Char.isDigit then
    let wa := wordsAfterAmount words
    if wa.isEmpty then c1 else some (pyStrip (" ".intercalate (wa.take 3)))
  else c1

/-- Embedding of `extract_category_for_expense` (tools.py lines 71-121). -/
def extract_category_for_expense (text_lower : String) (words : List String) :
    String :=
  finalizeCategory "Miscellaneous" (expenseCandidate text_lower words)

/-- The "from" fallback of `extract_category_for_income` (tools.py lines
146-152): tokens after the first occurrence of "from", when one exists and is
not the final token. -/
def fromFallback (words : List String) : Option String :=
  match words.findIdx? (fun w => w == "from") with
  | some idx =>
    if idx + 1 < words.length then
      some (pyStrip (" ".intercalate (words.drop (idx + 1))))
    else none
  | none => none

/-- Candidate category of `extract_category_for_income` before the default
(tools.py lines 126-152): source-bucket lookup, then the "from" fallback. -/
def incomeCandidate (text_lower : String) (words : List String) :
    Option String :=
  let c0 := firstBucket income_sources text_lower
  if truthyStr c0 then c0 else fromFallback words

/-- Embedding of `extract_category_for_income` (tools.py lines 124-154). -/
def extract_category_for_income (text_lower : String) (words : List String) :
    String :=
  finalizeCategory "Other Income" (incomeCandidate text_lower words)

/-- Type and category classification of `extract_expense_info` (tools.py
lines 41-63): expense keywords first, then income keywords, then the
contextual guess guarded by Python truthiness of the amount.  Returns the
pair (category, type). -/
def classify (text_lower : String) (amount : Option ℚ) (words : List String) :
    Option String × Option String :=
  if expense_keywords.any (fun k => containsSub text_lower k) then
    (some (extract_category_for_expense text_lower words), some "Expense")
  else if income_keywords.any (fun k => containsSub text_lower k) then
    (some (extract_category_for_income text_lower words), some "Income")
  else if truthyAmt amount then
    if expense_context_words.any (fun k => containsSub text_lower k) then
      (some (extract_category_for_expense text_lower words), some "Expense")
    else if income_context_words.any (fun k => containsSub text_lower k) then
      (some (extract_category_for_income text_lower words), some "Income")
    else (none, none)
  else (none, none)

/-- Result triple of `extract_expense_info`: the Python dict fields Amount,
Category and Type (`txType`, since `type` is reserved in Lean). -/
structure ExtractResult where
  amount : Option ℚ
  category : Option String
  txType : Option String
deriving Repr, DecidableEq

/-- Embedding of `extract_expense_info` (tools.py lines 5-68). -/
def extract_expense_info (text : String) : ExtractResult :=
  let text_lower := toLowerStr text
  let amount := parseAmount text_lower
  let ct := classify text_lower amount (pySplit text_lower)
  { amount := amount, category := ct.1, txType := ct.2 }

/-- Embedding of `validate_transaction_data` (tools.py lines 157-165). -/
def validate_transaction_data (amount : ℚ) (category : String)
    (transaction_type : String) : Bool :=
  if amount == 0 || amount ≤ 0 then false
  else if pyFalsy category || pyFalsy (pyStrip category) then false
  else if !(transaction_type == "Income" || transaction_type == "Expense") then
    false
  else true

/-- A persisted transaction row: the four CSV columns Amount, Category, Type
(`txType`) and Date of tracker_agent.py. -/
structure Transaction where
  amount : ℚ
  category : String
  txType : String
  date : String
deriving Repr, DecidableEq

/-- Embedding of `save_transaction` (tracker_agent.py lines 13-38): extract,
then persist only when all three of Amount, Category and Type are Python
truthy (non-None, non-zero, non-empty); the stored category is additionally
title-cased.  Returns the success flag and the updated store. -/
def save_transaction (user_input today : String) (store : List Transaction) :
    Bool × List Transaction :=
  let d := extract_expense_info user_input
  match d.amount, d.category, d.txType with
  | some a, some c, some t =>
    if a != 0 && !pyFalsy c && !pyFalsy t then
      (true, store ++ [{ amount := a, category := pyTitle c, txType := t,
                         date := today }])
    else (false, store)
  | _, _, _ => (false, store)

/-- The store-level append step inside `save_transaction` (tracker_agent.py
line 25): concatenate the new row at the end of the re-read sequence and
rewrite the whole sequence. -/
def append_record (r : Transaction) (store : List Transaction) :
    List Transaction :=
  store ++ [r]

/-- Embedding of `get_transactions` (tracker_agent.py lines 107-119) on a
readable store: success plus every record in storage order. -/
def get_transactions (store : List Transaction) : Bool × List Transaction :=
  (true, store)

/-- Embedding of `reset_data` (tracker_agent.py lines 92-104): replace the
sequence by the empty one. -/
def reset_data (_store : List Transaction) : Bool × List Transaction :=
  (true, [])

/-- Embedding of `delete_transaction` (tracker_agent.py lines 122-144): drop
the row at the given zero-based position when `0 <= index < len(df)`,
otherwise report failure and leave the store as it was. -/
def delete_transaction (index : ℤ) (store : List Transaction) :
    Bool × List Transaction :=
  if 0 ≤ index ∧ index < (store.length : ℤ) then
    (true, store.eraseIdx index.toNat)
  else (false, store)

/-- Per-category sums of `show_summary` (tracker_agent.py lines 66-67):
restrict to one type, then map each distinct category, in order of first
appearance, to the summed amount. -/
def groupByCategory (ty : String) (store : List Transaction) :
    List (String × ℚ) :=
  let recs := store.filter (fun t => t.txType == ty)
  ((recs.map (fun t => t.category)).eraseDups).map
    (fun c => (c, ((recs.filter (fun t => t.category == c)).map
      (fun t => t.amount)).sum))

/-- The data part of a summary response.  `total_records` is an `Option`
because the empty-ledger branch of `show_summary` builds its dict without
that key. -/
structure SummaryData where
  total_income : ℚ
  total_expense : ℚ
  balance : ℚ
  income_by_category : List (String × ℚ)
  expenses_by_category : List (String × ℚ)
  recent_transactions : List Transaction
  total_records : Option ℕ
deriving Repr, DecidableEq

/-- Embedding of `show_summary` (tracker_agent.py lines 41-89) on a readable
store: the dedicated empty-ledger branch, and otherwise the filtered sums,
the balance, the groupings, the last ten records and the record count. -/
def show_summary (store : List Transaction) : Bool × SummaryData :=
  if store.isEmpty then
    (true,
     { total_income := 0, total_expense := 0, balance := 0,
       income_by_category := [], expenses_by_category := [],
       recent_transactions := [], total_records := none })
  else
    let ti := ((store.filter (fun t => t.txType == "Income")).map
      (fun t => t.amount)).sum
    let te := ((store.filter (fun t => t.txType == "Expense")).map
      (fun t => t.amount)).sum
    (true,
     { total_income := ti, total_expense := te, balance := ti - te,
       income_by_category := groupByCategory "Income" store,
       expenses_by_category := groupByCategory "Expense" store,
       recent_transactions := store.drop (store.length - 10),
       total_records := some store.length })

/-- Category described by claim C1, written from the claim text: take the
tokens after the last occurrence of a preposition among on/for/to/at, filter
out the bare words "the" and "a", join with spaces and title-case. -/
def claimedLastPrepCategory (words : List String) : Option String :=
  let preps : List String := ["on", "for", "to", "at"]
  match ((List.range words.length).filter
      (fun i => preps.contains (words.getD i ""))).getLast? with
  | some i =>
    some (pyTitle (" ".intercalate ((words.drop (i + 1)).filter
      (fun w => !(w == "the" || w == "a")))))
  | none => none

/-- Specification-style reformulation of the code's preposition fallback:
among the prepositions in the fixed order on/for/to/at, pick the first whose
first occurrence in the token list has a successor token, and process the
tokens after that occurrence. -/
def firstPrepPhrase (words : List String) : Option String :=
  ["on", "for", "to", "at"].findSome? (fun kw =>
    match words.findIdx? (fun w => w == kw) with
    | some idx =>
      if idx + 1 < words.length then some (processPhrase (words.drop (idx + 1)))
      else none
    | none => none)

/-- Specification-side total for one transaction type: the fold the spec
describes as the sum of amounts over records of that type. -/
def specTotal (ty : String) (store : List Transaction) : ℚ :=
  store.foldr (fun t acc => if t.txType = ty then t.amount + acc else acc) 0

/-- Well-formedness of a persisted record as the invariant states it:
positive amount, non-empty category, non-empty type. -/
def WellFormed (t : Transaction) : Prop :=
  0 < t.amount ∧ t.category ≠ "" ∧ t.txType ≠ ""

/-- The store invariant: every persisted record is well-formed. -/
def StoreInv (store : List Transaction) : Prop :=
  ∀ t ∈ store, WellFormed t

end ExpenseTracker

namespace ExpenseTracker

/-- A concrete three-record ledger used by the summary claims: two expenses
of 100 and 50 and one income of 200. -/
def exampleLedger : List Transaction :=
  [{ amount := 100, category := "Food", txType := "Expense", date := "2024-01-01" },
   { amount := 50, category := "Travel", txType := "Expense", date := "2024-01-02" },
   { amount := 200, category := "Salary", txType := "Income", date := "2024-01-03" }]

/-- Python falsiness of a string coincides with being the empty string. -/
lemma pyFalsy_eq_true_iff (s : String) : pyFalsy s = true ↔ s = "" := by
  unfold pyFalsy
  rw [List.isEmpty_iff, String.ext_iff]

/-- Title-casing a non-empty string yields a non-empty string. -/
lemma pyTitle_ne_empty (s : String) (h : s ≠ "") : pyTitle s ≠ "" := by
  intro hc
  apply h
  have hd : titleChars false s.data = [] := by
    have := congrArg String.data hc
    exact this
  rw [String.ext_iff]
  cases hs : s.data with
  | nil => rfl
  | cons c cs => rw [hs] at hd; simp [titleChars] at hd

/-- The shared final step of the category extractors never returns the empty
string when the default is non-empty. -/
lemma finalizeCategory_ne_empty (dflt : String) (hd : dflt ≠ "")
    (o : Option String) : finalizeCategory dflt o ≠ "" := by
  cases o with
  | none => exact hd
  | some c =>
    simp only [finalizeCategory]
    by_cases hc : pyFalsy c = true
    · rw [if_pos hc]; exact hd
    · rw [if_neg hc]
      apply pyTitle_ne_empty
      intro he
      exact hc ((pyFalsy_eq_true_iff c).mpr he)

/-- The expense category extractor never returns the empty string. -/
lemma extract_category_for_expense_ne_empty (tl : String) (ws : List String) :
    extract_category_for_expense tl ws ≠ "" :=
  finalizeCategory_ne_empty _ (by decide) _

/-- The income category extractor never returns the empty string. -/
lemma extract_category_for_income_ne_empty (tl : String) (ws : List String) :
    extract_category_for_income tl ws ≠ "" :=
  finalizeCategory_ne_empty _ (by decide) _

/-- The amount field of an extraction is exactly the regex parse of the
lowercased text, independent of the classification branches. -/
lemma extract_amount_eq (text : String) :
    (extract_expense_info text).amount = parseAmount (toLowerStr text) := rfl

/-- Every successfully parsed amount is non-negative: the captured group is a
digit sequence with an optional short fraction. -/
lemma parseAmount_nonneg (s : String) (a : ℚ) (h : parseAmount s = some a) :
    0 ≤ a := by
  unfold parseAmount at h
  by_cases he : (s.data.dropWhile (fun c => !c.isDigit)).isEmpty
  · simp [he] at h
  · simp only [he, if_false, Bool.false_eq_true] at h
    split at h <;> (injection h with h; subst h; positivity)

/-- When an expense keyword is a substring of the text, classification takes
the expense branch. -/
lemma classify_expense (tl : String) (a : Option ℚ) (ws : List String)
    (h : expense_keywords.any (fun k => containsSub tl k) = true) :
    classify tl a ws = (some (extract_category_for_expense tl ws), some "Expense") := by
  unfold classify
  rw [if_pos h]

/-- When no expense keyword but an income keyword is a substring of the
text, classification takes the income branch. -/
lemma classify_income (tl : String) (a : Option ℚ) (ws : List String)
    (hexp : expense_keywords.any (fun k => containsSub tl k) = false)
    (hinc : income_keywords.any (fun k => containsSub tl k) = true) :
    classify tl a ws = (some (extract_category_for_income tl ws), some "Income") := by
  unfold classify
  rw [if_neg (by simp [hexp]), if_pos hinc]

/-- Whenever classification produces a type, the category it produces comes
from one of the two category extractors. -/
lemma classify_txType_some (tl : String) (a : Option ℚ) (ws : List String)
    (ty : String) (h : (classify tl a ws).2 = some ty) :
    (classify tl a ws).1 = some (extract_category_for_expense tl ws) ∨
    (classify tl a ws).1 = some (extract_category_for_income tl ws) := by
  by_cases h1 : expense_keywords.any (fun k => containsSub tl k) = true
  · left; unfold classify; rw [if_pos h1]
  · by_cases h2 : income_keywords.any (fun k => containsSub tl k) = true
    · right; unfold classify; rw [if_neg h1, if_pos h2]
    · by_cases h3 : truthyAmt a = true
      · by_cases h4 : expense_context_words.any (fun k => containsSub tl k) = true
        · left; unfold classify; rw [if_neg h1, if_neg h2, if_pos h3, if_pos h4]
        · by_cases h5 : income_context_words.any (fun k => containsSub tl k) = true
          · right; unfold classify
            rw [if_neg h1, if_neg h2, if_pos h3, if_neg h4, if_pos h5]
          · exfalso; unfold classify at h
            rw [if_neg h1, if_neg h2, if_pos h3, if_neg h4, if_neg h5] at h
            simp at h
      · exfalso; unfold classify at h
        rw [if_neg h1, if_neg h2, if_neg h3] at h
        simp at h

/-- Unfolding of the extraction record in terms of the parse and the
classification pair. -/
lemma extract_expense_info_def (text : String) :
    extract_expense_info text =
      { amount := parseAmount (toLowerStr text),
        category := (classify (toLowerStr text) (parseAmount (toLowerStr text))
          (pySplit (toLowerStr text))).1,
        txType := (classify (toLowerStr text) (parseAmount (toLowerStr text))
          (pySplit (toLowerStr text))).2 } := rfl

/-- The preposition loop agrees with its findSome-style restatement for any
keyword list. -/
lemma prepLoop_eq_findSome (kws words : List String) :
    prepLoop kws words = kws.findSome? (fun kw =>
      match words.findIdx? (fun w => w == kw) with
      | some idx =>
        if idx + 1 < words.length then some (processPhrase (words.drop (idx + 1)))
        else none
      | none => none) := by
  induction kws with
  | nil => rfl
  | cons kw rest ih =>
    rw [List.findSome?_cons]
    unfold prepLoop
    cases hf : words.findIdx? (fun w => w == kw) with
    | none => simpa using ih
    | some idx =>
      by_cases hlt : idx + 1 < words.length
      · simp [hlt]
      · simp [hlt, ih]

/-- The source's preposition loop coincides with the specification-style
first-preposition description. -/
lemma firstPrepPhrase_eq (words : List String) :
    prepLoop ["on", "for", "to", "at"] words = firstPrepPhrase words :=
  prepLoop_eq_findSome _ _

/-- The specification-side fold total equals the filter-map-sum the code
computes. -/
lemma specTotal_eq (ty : String) (l : List Transaction) :
    specTotal ty l =
      ((l.filter (fun t => t.txType == ty)).map (fun t => t.amount)).sum := by
  induction l with
  | nil => rfl
  | cons t l ih =>
    unfold specTotal at ih ⊢
    rw [List.foldr_cons, List.filter_cons]
    by_cases h : t.txType = ty
    · simp [h, ih]
    · simp [h, ih]

end ExpenseTracker

namespace ExpenseTracker

/-- Claim C1, counterexample.  The claim says the no-bucket fallback category
equals the tokens after the LAST preposition occurrence with the BARE words
"the" and "a" filtered out, title-cased.  On the expense text
"spent 5 on war on a car" (no bucket matches) the claimed recipe gives
"Car", but the code takes the tokens after the FIRST occurrence of the first
matching preposition and removes "the" and "a" as SUBSTRINGS, yielding
"Wr On  Cr". -/
theorem claim_C1_counterexample :
    (expense_keywords.any (fun k =>
      containsSub (toLowerStr "spent 5 on war on a car") k)) = true ∧
    firstBucket category_keywords (toLowerStr "spent 5 on war on a car") = none ∧
    claimedLastPrepCategory (pySplit (toLowerStr "spent 5 on war on a car")) =
      some "Car" ∧
    (extract_expense_info "spent 5 on war on a car").category = some "Wr On  Cr" ∧
    (extract_expense_info "spent 5 on war on a car").category ≠
      claimedLastPrepCategory (pySplit (toLowerStr "spent 5 on war on a car")) :=
  ⟨by decide, by decide, by decide, by decide, by decide⟩

/-- Claim C1, amended.  For every input classified as Expense whose lowercased
text matches no category bucket, when the preposition fallback fires (scanning
on/for/to/at in that order, the first preposition whose first occurrence has a
successor token) and its processed phrase — tokens after that occurrence
joined with spaces, substring occurrences of "the" then "a" removed, trimmed —
is non-empty, the extracted category is that phrase title-cased. -/
theorem claim_C1_amended (text : String) (c : String)
    (hexp : (expense_keywords.any (fun k => containsSub (toLowerStr text) k)) = true)
    (hnob : firstBucket category_keywords (toLowerStr text) = none)
    (hp : firstPrepPhrase (pySplit (toLowerStr text)) = some c)
    (hc : c ≠ "") :
    (extract_expense_info text).category = some (pyTitle c) := by
  have hfal : pyFalsy c = false := by
    cases hpf : pyFalsy c
    · rfl
    · exact absurd ((pyFalsy_eq_true_iff c).mp hpf) hc
  rw [extract_expense_info_def]
  rw [classify_expense _ _ _ hexp]
  show some (extract_category_for_expense (toLowerStr text)
    (pySplit (toLowerStr text))) = some (pyTitle c)
  congr 1
  unfold extract_category_for_expense expenseCandidate
  rw [hnob, firstPrepPhrase_eq, hp]
  simp only [truthyStr, hfal, Bool.not_false, if_true, if_false,
    Bool.false_eq_true, finalizeCategory]

/-- Claim C1, witness for the amended theorem at the concrete expense text
"spent 5 on car": the fallback phrase is "cr" and the extracted category is
"Cr". -/
theorem claim_C1_amended_witness :
    firstPrepPhrase (pySplit (toLowerStr "spent 5 on car")) = some "cr" ∧
    (extract_expense_info "spent 5 on car").category = some (pyTitle "cr") :=
  ⟨by decide,
   claim_C1_amended "spent 5 on car" "cr" (by decide) (by decide) (by decide)
     (by decide)⟩

/-- Claim C2, counterexample.  "got paid 100" contains the income keyword
"got" and a parsable amount, but it also contains the expense keyword "paid",
and since expense keywords are checked first the extraction yields type
Expense, not Income as the claim demands. -/
theorem claim_C2_counterexample :
    (income_keywords.any (fun k => containsSub (toLowerStr "got paid 100") k)) = true ∧
    (extract_expense_info "got paid 100").amount = some 100 ∧
    (extract_expense_info "got paid 100").txType = some "Expense" ∧
    (extract_expense_info "got paid 100").txType ≠ some "Income" :=
  ⟨by decide, by decide, by decide, by decide⟩

/-- Claim C2, amended.  For every input text containing an income keyword and
a parsable amount and NO expense keyword as a substring of the lowercased
text, extraction yields type Income and a non-null, non-empty category, which
is "Other Income" whenever no source bucket and no "from" fallback match. -/
theorem claim_C2_amended (text : String)
    (hinc : (income_keywords.any (fun k => containsSub (toLowerStr text) k)) = true)
    (hexp : (expense_keywords.any (fun k => containsSub (toLowerStr text) k)) = false)
    (_hamt : (extract_expense_info text).amount.isSome = true) :
    (extract_expense_info text).txType = some "Income" ∧
    (∃ c, (extract_expense_info text).category = some c ∧ c ≠ "") ∧
    (firstBucket income_sources (toLowerStr text) = none →
      fromFallback (pySplit (toLowerStr text)) = none →
      (extract_expense_info text).category = some "Other Income") := by
  have hcl := classify_income (toLowerStr text) (parseAmount (toLowerStr text))
    (pySplit (toLowerStr text)) hexp hinc
  have hty : (extract_expense_info text).txType = some "Income" := by
    rw [extract_expense_info_def]; simp only [hcl]
  have hcat : (extract_expense_info text).category =
      some (extract_category_for_income (toLowerStr text)
        (pySplit (toLowerStr text))) := by
    rw [extract_expense_info_def]; simp only [hcl]
  refine ⟨hty, ⟨_, hcat, extract_category_for_income_ne_empty _ _⟩, ?_⟩
  intro hb hf
  rw [hcat]
  congr 1
  unfold extract_category_for_income incomeCandidate
  rw [hb, hf]
  simp [truthyStr, finalizeCategory]

/-- Claim C2, witness for the amended theorem at "got 100": income keyword,
parsable amount, no expense keyword, no source bucket, no "from", so type is
Income and the category defaults to "Other Income". -/
theorem claim_C2_amended_witness :
    (extract_expense_info "got 100").txType = some "Income" ∧
    (extract_expense_info "got 100").category = some "Other Income" :=
  ⟨(claim_C2_amended "got 100" (by decide) (by decide) (by decide)).1,
   (claim_C2_amended "got 100" (by decide) (by decide) (by decide)).2.2
     (by decide) (by decide)⟩

/-- Claim C3.  Expense keywords are checked before income keywords, first
match wins: any text containing both an expense keyword and an income keyword
as substrings of the lowercased text is classified as Expense. -/
theorem claim_C3 (text : String)
    (hexp : (expense_keywords.any (fun k => containsSub (toLowerStr text) k)) = true)
    (_hinc : (income_keywords.any (fun k => containsSub (toLowerStr text) k)) = true) :
    (extract_expense_info text).txType = some "Expense" := by
  rw [extract_expense_info_def]
  simp only [classify_expense _ _ _ hexp]

/-- Claim C3, witness at "spent salary 50", which contains the expense
keyword "spent" and the income keyword "salary" and is classified Expense. -/
theorem claim_C3_witness :
    (extract_expense_info "spent salary 50").txType = some "Expense" :=
  claim_C3 "spent salary 50" (by decide) (by decide)

/-- Claim C4, counterexample.  The regex also matches the digit sequence "0",
so on the input "0" extraction returns the non-null amount 0, which is not
strictly greater than 0. -/
theorem claim_C4_counterexample :
    (extract_expense_info "0").amount = some 0 ∧ ¬ (0 : ℚ) > 0 :=
  ⟨by decide, by decide⟩

/-- Claim C4, amended.  For every input text, when extraction returns a
non-null amount that amount is non-negative (the digit-only regex guarantees
a value of at least 0, but not a strictly positive one). -/
theorem claim_C4_amended (text : String) (a : ℚ)
    (h : (extract_expense_info text).amount = some a) : 0 ≤ a := by
  rw [extract_amount_eq] at h
  exact parseAmount_nonneg _ _ h

/-- Claim C4, witness for the amended theorem at "spent 75 on tea", whose
parsed amount 75 is non-negative. -/
theorem claim_C4_amended_witness :
    (extract_expense_info "spent 75 on tea").amount = some 75 ∧ (0 : ℚ) ≤ 75 :=
  ⟨by decide, claim_C4_amended "spent 75 on tea" 75 (by decide)⟩

/-- Claim C5.  Deletion by position returns a failure outcome exactly when
the position is negative or at least the record count, and on such a failure
the stored sequence is unchanged. -/
theorem claim_C5 (index : ℤ) (store : List Transaction) :
    ((delete_transaction index store).1 = false ↔
      index < 0 ∨ (store.length : ℤ) ≤ index) ∧
    ((delete_transaction index store).1 = false →
      (delete_transaction index store).2 = store) := by
  unfold delete_transaction
  by_cases h : 0 ≤ index ∧ index < (store.length : ℤ)
  · rw [if_pos h]
    refine ⟨⟨fun hh => absurd hh (by simp), fun hor => by exfalso; omega⟩,
      fun hh => absurd hh (by simp)⟩
  · rw [if_neg h]
    exact ⟨⟨fun _ => by omega, fun _ => rfl⟩, fun _ => rfl⟩

/-- Claim C5, witness: deleting position 5 from the empty store fails and
leaves the store empty. -/
theorem claim_C5_witness :
    (delete_transaction 5 ([] : List Transaction)).1 = false ∧
    (delete_transaction 5 ([] : List Transaction)).2 = [] := by
  have h := claim_C5 5 ([] : List Transaction)
  have hfail : (delete_transaction 5 ([] : List Transaction)).1 = false :=
    h.1.mpr (Or.inr (by decide))
  exact ⟨hfail, h.2 hfail⟩

/-- Claim C6.  The store invariant — every persisted record has a positive
amount, a non-empty category and a non-empty type — is preserved by
save_transaction (which refuses Python-falsy extracted fields),
delete_transaction and reset_data. -/
theorem claim_C6 (store : List Transaction) (h : StoreInv store)
    (input today : String) (index : ℤ) :
    StoreInv (save_transaction input today store).2 ∧
    StoreInv (delete_transaction index store).2 ∧
    StoreInv (reset_data store).2 := by
  refine ⟨?_, ?_, ?_⟩
  · simp only [save_transaction]
    split
    · rename_i a c t ha hc ht
      split
      · rename_i hguard
        simp only [Bool.and_eq_true, bne_iff_ne] at hguard
        intro x hx
        rcases List.mem_append.mp hx with hmem | hmem
        · exact h x hmem
        · rw [List.mem_singleton.mp hmem]
          refine ⟨?_, ?_, ?_⟩
          · have hnn : 0 ≤ a := by
              rw [extract_amount_eq] at ha
              exact parseAmount_nonneg _ _ ha
            exact lt_of_le_of_ne hnn (Ne.symm hguard.1.1)
          · apply pyTitle_ne_empty
            intro he
            have : pyFalsy c = true := (pyFalsy_eq_true_iff c).mpr he
            simp [this] at hguard
          · intro he
            have : pyFalsy t = true := (pyFalsy_eq_true_iff t).mpr he
            simp [this] at hguard
      · exact h
    · exact h
  · intro x hx
    unfold delete_transaction at hx
    by_cases hidx : 0 ≤ index ∧ index < (store.length : ℤ)
    · rw [if_pos hidx] at hx
      exact h x ((store.eraseIdx_sublist index.toNat).subset hx)
    · rw [if_neg hidx] at hx
      exact h x hx
  · intro x hx
    exact absurd hx (List.not_mem_nil x)

/-- Claim C6, witness on the empty store: saving "spent 40 on fuel", deleting
position 0 and resetting all preserve the invariant. -/
theorem claim_C6_witness :
    StoreInv (save_transaction "spent 40 on fuel" "2026-01-02" []).2 ∧
    StoreInv (delete_transaction 0 []).2 ∧
    StoreInv (reset_data []).2 :=
  claim_C6 [] (fun t ht => absurd ht (List.not_mem_nil t)) "spent 40 on fuel"
    "2026-01-02" 0

/-- Claim C7.  For every stored ledger the summary's total_income is the sum
of amounts over Income records, total_expense the sum over Expense records,
and balance their difference; on the concrete ledger with expenses 100 and 50
and income 200 it yields total_expense 150, total_income 200, balance 50. -/
theorem claim_C7 :
    (∀ store : List Transaction,
      (show_summary store).2.total_income = specTotal "Income" store ∧
      (show_summary store).2.total_expense = specTotal "Expense" store ∧
      (show_summary store).2.balance =
        (show_summary store).2.total_income -
          (show_summary store).2.total_expense) ∧
    ((show_summary exampleLedger).2.total_expense = 150 ∧
     (show_summary exampleLedger).2.total_income = 200 ∧
     (show_summary exampleLedger).2.balance = 50) := by
  have hgen : ∀ store : List Transaction,
      (show_summary store).2.total_income = specTotal "Income" store ∧
      (show_summary store).2.total_expense = specTotal "Expense" store ∧
      (show_summary store).2.balance =
        (show_summary store).2.total_income -
          (show_summary store).2.total_expense := by
    intro store
    cases store with
    | nil => exact ⟨rfl, rfl, by norm_num [show_summary]⟩
    | cons t l =>
      rw [specTotal_eq, specTotal_eq]
      refine ⟨?_, ?_, ?_⟩ <;>
        simp only [show_summary, List.isEmpty_cons, Bool.false_eq_true, if_false]
  have e1 : ("Expense" == "Income") = false := rfl
  have e2 : ("Income" == "Expense") = false := rfl
  have e3 : ("Expense" == "Expense") = true := rfl
  have e4 : ("Income" == "Income") = true := rfl
  refine ⟨hgen, ?_, ?_, ?_⟩
  · rw [(hgen exampleLedger).2.1, specTotal_eq]
    norm_num [exampleLedger, List.filter, e1, e2, e3, e4]
  · rw [(hgen exampleLedger).1, specTotal_eq]
    norm_num [exampleLedger, List.filter, e1, e2, e3, e4]
  · rw [(hgen exampleLedger).2.2, (hgen exampleLedger).1,
      (hgen exampleLedger).2.1, specTotal_eq, specTotal_eq]
    norm_num [exampleLedger, List.filter, e1, e2, e3, e4]

/-- Claim C8, code evaluation at the failing input.  Reset is idempotent and
the empty-ledger summary reports success with all totals 0 and empty category
maps, but its data carries NO total_records field at all (modelled as `none`)
instead of the total_records = 0 the claim and the summary contract require;
the UI reads that key unconditionally. -/
theorem claim_C8_code_eval :
    (reset_data exampleLedger).2 = [] ∧
    (reset_data (reset_data exampleLedger).2).2 = [] ∧
    (show_summary []).1 = true ∧
    (show_summary []).2.total_income = 0 ∧
    (show_summary []).2.total_expense = 0 ∧
    (show_summary []).2.balance = 0 ∧
    (show_summary []).2.income_by_category = [] ∧
    (show_summary []).2.expenses_by_category = [] ∧
    (show_summary []).2.recent_transactions = [] ∧
    (show_summary []).2.total_records = none := by decide

/-- Claim C9.  Round-trip of the store: appending a record and then listing
all transactions returns the old sequence extended by the record, whose last
element equals the appended record in all four attributes. -/
theorem claim_C9 (r : Transaction) (store : List Transaction) :
    (get_transactions (append_record r store)).2 = store ++ [r] ∧
    (get_transactions (append_record r store)).2.getLast? = some r :=
  ⟨rfl, List.getLast?_concat store⟩

/-- Claim C10.  Whenever extraction returns a non-null type it also returns a
non-null, non-empty category, independently of the amount, because both
category extractors end in a non-empty default. -/
theorem claim_C10 (text : String) (ty : String)
    (h : (extract_expense_info text).txType = some ty) :
    ∃ c, (extract_expense_info text).category = some c ∧ c ≠ "" := by
  rw [extract_expense_info_def] at h ⊢
  rcases classify_txType_some _ _ _ _ h with hc | hc
  · exact ⟨_, hc, extract_category_for_expense_ne_empty _ _⟩
  · exact ⟨_, hc, extract_category_for_income_ne_empty _ _⟩

/-- Claim C10, witness at "ate lunch", a digit-free text typed Expense whose
category is the non-empty bucket "Food & Dining". -/
theorem claim_C10_witness :
    (extract_expense_info "ate lunch").txType = some "Expense" ∧
    ∃ c, (extract_expense_info "ate lunch").category = some c ∧ c ≠ "" :=
  ⟨by decide, claim_C10 "ate lunch" "Expense" (by decide)⟩

end ExpenseTracker
